import Mathlib

/-!
Verification of the genimg orchestration core (cache, registry, providers,
prompt optimizer, cancellable-runner control flow) against a shallow
embedding of `src/genimg`.  Python dictionaries are modelled as ordered
association lists with insert-or-overwrite semantics; machine-level details
(threads, wall-clock time, actual HTTP and subprocess I/O) are abstracted
into explicit outcome parameters, while all decision logic (key derivation,
truthiness tests, control-flow ordering, error selection) is translated
directly from the source.
-/

set_option autoImplicit false
set_option maxRecDepth 8192

namespace Genimg

/-- Error taxonomy from `genimg/utils/exceptions.py`.  Each constructor
carries the payload fields of the corresponding Python exception class.
`interrupted` stands for a propagating `KeyboardInterrupt`, which is not a
`GenimgError` but can escape the polling loops; `uncaughtException` stands
for any other built-in Python exception the code does not catch (for
example a `TypeError` from `base64.b64decode` on a non-string, or a PIL
error from `Image.open`). -/
inductive GErr where
  | validationErr (message : String) (field : String)
  | apiErr (message : String) (status_code : Int) (response : String)
  | networkErr (message : String)
  | cancellationErr (message : String)
  | timeoutErr (message : String)
  | configurationErr (message : String)
  | imageProcessingErr (message : String) (image_path : String)
  | interrupted
  | uncaughtException (kind : String)
deriving DecidableEq, Repr

/-! ## Python dict model (ordered assoc list, insert-or-overwrite) -/

/-- Model of `d[k] = v` on a Python dict: overwrite in place if the key is
present, else append, preserving insertion order. -/
def dictInsert {α : Type} (d : List (String × α)) (k : String) (v : α) :
    List (String × α) :=
  if d.any (fun kv => kv.1 = k) then
    d.map (fun kv => if kv.1 = k then (k, v) else kv)
  else
    d ++ [(k, v)]

/-- Model of `d.get(k)` on a Python dict. -/
def dictGet {α : Type} (d : List (String × α)) (k : String) : Option α :=
  (d.find? (fun kv => kv.1 = k)).map (fun kv => kv.2)

/-- Model of `list(d.keys())` on a Python dict. -/
def dictKeys {α : Type} (d : List (String × α)) : List String :=
  d.map (fun kv => kv.1)

theorem dictGet_append_of_not_mem {α : Type} (d l : List (String × α)) (k : String)
    (h : d.any (fun kv => kv.1 = k) = false) :
    dictGet (d ++ l) k = dictGet l k := by
  induction d with
  | nil => rfl
  | cons kv t ih =>
      rw [List.any_cons, Bool.or_eq_false_iff] at h
      simp only [dictGet, List.cons_append, List.find?, h.1]
      exact ih h.2

theorem dictGet_overwrite {α : Type} (d : List (String × α)) (k : String) (v : α)
    (h : d.any (fun kv => kv.1 = k) = true) :
    dictGet (d.map (fun kv => if kv.1 = k then (k, v) else kv)) k = some v := by
  induction d with
  | nil => simp [List.any_nil] at h
  | cons kv t ih =>
      by_cases hk : kv.1 = k
      · simp [dictGet, List.find?, hk]
      · simp only [List.any_cons, Bool.or_eq_true, decide_eq_true_eq] at h
        have ht : t.any (fun kv => kv.1 = k) = true := by
          rcases h with h | h
          · exact absurd h hk
          · exact h
        simp only [List.map_cons, dictGet, List.find?, if_neg hk]
        rw [decide_eq_false hk]
        exact ih ht

/-- Looking up the key just inserted returns the inserted value. -/
theorem dictGet_dictInsert_self {α : Type} (d : List (String × α)) (k : String) (v : α) :
    dictGet (dictInsert d k v) k = some v := by
  unfold dictInsert
  cases hb : d.any (fun kv => kv.1 = k) with
  | true => rw [if_pos rfl]; exact dictGet_overwrite d k v hb
  | false =>
      rw [if_neg (by simp)]
      rw [dictGet_append_of_not_mem d _ k hb]
      simp [dictGet, List.find?]

/-- Overwriting an existing key leaves the key list unchanged. -/
theorem dictKeys_overwrite {α : Type} (d : List (String × α)) (k : String) (v : α) :
    dictKeys (d.map (fun kv => if kv.1 = k then (k, v) else kv)) = dictKeys d := by
  induction d with
  | nil => rfl
  | cons kv t ih =>
      simp only [List.map_cons, dictKeys]
      by_cases hk : kv.1 = k
      · simp [hk, ih, dictKeys] at *
        exact ih
      · simp only [if_neg hk]
        simpa [dictKeys] using ih

/-! ## Prompt cache (`genimg/utils/cache.py`) -/

/-- `PromptCache._generate_key` (cache.py:19-38).  The Python code appends
`reference_hash` to the key parts only when it is truthy (`if reference_hash:`),
so `None` and the empty string are both skipped; the parts are joined with
`"|"` and the join is then fed through SHA-256.  SHA-256 is a fixed
deterministic function, so two triples map to the same cache key exactly when
their joined key strings coincide (collision-freedom of SHA-256 on the inputs
actually used is assumed, as the code does); the embedding therefore uses the
joined key string itself as the derived key. -/
def generate_key (prompt model : String) (reference_hash : Option String) : String :=
  let key_parts : List String :=
    [prompt, model] ++
      (match reference_hash with
        | some r => if r = "" then [] else [r]
        | none => [])
  String.intercalate "|" key_parts

/-- The cache's backing store: a Python dict from derived key to rewritten
prompt (cache.py:17). -/
def PromptCacheState : Type := List (String × String)

instance : DecidableEq PromptCacheState := by
  unfold PromptCacheState; infer_instance

/-- `PromptCache.get` (cache.py:40-55). -/
def cacheGet (c : PromptCacheState) (prompt model : String)
    (reference_hash : Option String) : Option String :=
  dictGet c (generate_key prompt model reference_hash)

/-- `PromptCache.set` (cache.py:57-74). -/
def cacheSet (c : PromptCacheState) (prompt model optimized_prompt : String)
    (reference_hash : Option String) : PromptCacheState :=
  dictInsert c (generate_key prompt model reference_hash) optimized_prompt

/-! ## Provider registry (`genimg/core/providers/registry.py`) -/

/-- A registered provider implementation is abstracted to its capability
flag `supports_reference_image` (all the registry itself inspects). -/
structure ProviderImpl where
  supports_reference_image : Bool
deriving DecidableEq, Repr

/-- The registry's backing store: a Python dict from provider id to
implementation (registry.py:14). -/
def RegistryState : Type := List (String × ProviderImpl)

instance : DecidableEq RegistryState := by
  unfold RegistryState; infer_instance

/-- `ProviderRegistry.register` (registry.py:16-18): plain dict assignment,
total (never throws). -/
def registryRegister (r : RegistryState) (provider_id : String) (impl : ProviderImpl) :
    RegistryState :=
  dictInsert r provider_id impl

/-- `ProviderRegistry.get` (registry.py:20-22): `dict.get`, total. -/
def registryGet (r : RegistryState) (provider_id : String) : Option ProviderImpl :=
  dictGet r provider_id

/-- `ProviderRegistry.provider_ids` (registry.py:24-26). -/
def registryProviderIds (r : RegistryState) : List String :=
  dictKeys r

theorem any_key_eq_false_of_not_mem {α : Type} (d : List (String × α)) (k : String)
    (h : k ∉ dictKeys d) : d.any (fun kv => kv.1 = k) = false := by
  induction d with
  | nil => rfl
  | cons kv t ih =>
      simp only [dictKeys, List.map_cons, List.mem_cons, not_or] at h
      rw [List.any_cons, Bool.or_eq_false_iff]
      refine ⟨by simpa using fun hkv => h.1 hkv.symm, ih (by simpa [dictKeys] using h.2)⟩

theorem dictGet_eq_none_of_not_mem {α : Type} (d : List (String × α)) (k : String)
    (h : k ∉ dictKeys d) : dictGet d k = none := by
  have hb := any_key_eq_false_of_not_mem d k h
  induction d with
  | nil => rfl
  | cons kv t ih =>
      rw [List.any_cons, Bool.or_eq_false_iff] at hb
      simp only [dictGet, List.find?, hb.1]
      exact ih (fun hm => h (by simpa [dictKeys] using Or.inr (by simpa [dictKeys] using hm))) hb.2

theorem dictKeys_append {α : Type} (d l : List (String × α)) :
    dictKeys (d ++ l) = dictKeys d ++ dictKeys l := by
  simp [dictKeys]

theorem any_key_eq_true_of_mem {α : Type} (d : List (String × α)) (k : String)
    (h : k ∈ dictKeys d) : d.any (fun kv => kv.1 = k) = true := by
  induction d with
  | nil => simp [dictKeys] at h
  | cons kv t ih =>
      rw [List.any_cons, Bool.or_eq_true]
      have h2 : k = kv.1 ∨ k ∈ dictKeys t := by simpa [dictKeys] using h
      rcases h2 with h1 | h1
      · exact Or.inl (decide_eq_true h1.symm)
      · exact Or.inr (ih h1)

/-- `dictInsert` on a present key is the overwriting map. -/
theorem dictInsert_of_mem {α : Type} (d : List (String × α)) (k : String) (v : α)
    (h : k ∈ dictKeys d) :
    dictInsert d k v = d.map (fun kv => if kv.1 = k then (k, v) else kv) := by
  unfold dictInsert
  rw [if_pos (any_key_eq_true_of_mem d k h)]

/-- `dictInsert` on an absent key appends. -/
theorem dictInsert_of_not_mem {α : Type} (d : List (String × α)) (k : String) (v : α)
    (h : k ∉ dictKeys d) :
    dictInsert d k v = d ++ [(k, v)] := by
  unfold dictInsert
  have hf := any_key_eq_false_of_not_mem d k h
  rw [if_neg (by rw [hf]; exact Bool.false_ne_true)]

/-- Registering the same id twice: keys after the double registration. -/
theorem dictKeys_double_insert {α : Type} (r : List (String × α)) (k : String) (a b : α) :
    dictKeys (dictInsert (dictInsert r k a) k b) =
      if k ∈ dictKeys r then dictKeys r else dictKeys r ++ [k] := by
  by_cases hk : k ∈ dictKeys r
  · rw [if_pos hk]
    rw [dictInsert_of_mem r k a hk]
    have h1 : dictKeys (r.map (fun kv => if kv.1 = k then (k, a) else kv)) = dictKeys r :=
      dictKeys_overwrite r k a
    rw [dictInsert_of_mem _ k b (h1 ▸ hk)]
    rw [dictKeys_overwrite, h1]
  · rw [if_neg hk]
    rw [dictInsert_of_not_mem r k a hk]
    have hmem : k ∈ dictKeys (r ++ [(k, a)]) := by
      rw [dictKeys_append]; simp [dictKeys]
    rw [dictInsert_of_mem _ k b hmem]
    rw [dictKeys_overwrite, dictKeys_append]
    simp [dictKeys]

theorem dictGet_double_insert {α : Type} (r : List (String × α)) (k : String) (a b : α) :
    dictGet (dictInsert (dictInsert r k a) k b) k = some b :=
  dictGet_dictInsert_self (dictInsert r k a) k b

/-! ## Python string primitives

The string operations used by `prompt.py` are modelled over `List Char`
(Python indexes strings by code point, as `List Char` does).  They are
defined by structural recursion so every theorem below can be checked on
concrete inputs by kernel evaluation. -/

/-- Python `str.isspace` characters relevant to `str.strip()` (ASCII
whitespace; the source strings never contain the wider Unicode set). -/
def pyIsSpace (c : Char) : Bool :=
  c = ' ' || c = '\t' || c = '\n' || c = '\r' || c = '\x0b' || c = '\x0c'

/-- Python `str.strip()` on a character list. -/
def pyStripList (s : List Char) : List Char :=
  ((s.dropWhile pyIsSpace).reverse.dropWhile pyIsSpace).reverse

/-- Python `str.strip()`. -/
def pyStrip (s : String) : String := String.mk (pyStripList s.toList)

/-- Does `sub` occur at the head of `s`? -/
def subAt (sub s : List Char) : Bool :=
  match sub, s with
  | [], _ => true
  | _ :: _, [] => false
  | a :: as, b :: bs => a = b && subAt as bs

/-- Index (counting from `i`) of the first occurrence of `sub` in `s`. -/
def findFrom (sub : List Char) : List Char → Nat → Option Nat
  | [], i => if subAt sub [] then some i else none
  | c :: t, i => if subAt sub (c :: t) then some i else findFrom sub t (i + 1)

/-- Python `s.find(sub, start)` over code points, with `none` for Python's
`-1` (callers below always test the result before using it, as the source
tests for `-1` / membership). -/
def strFind (s sub : String) (start : Nat) : Option Nat :=
  findFrom sub.toList (s.toList.drop start) start

/-- Python `s.startswith(pre)`. -/
def pyStartsWith (s pre : String) : Bool := subAt pre.toList s.toList

/-- Python `s.split("\n")` on a character list. -/
def splitNlList : List Char → List (List Char)
  | [] => [[]]
  | c :: t =>
      let r := splitNlList t
      if c = '\n' then [] :: r
      else
        match r with
        | h :: rest => (c :: h) :: rest
        | [] => [[c]]

/-- Python `s.split("\n")`. -/
def pySplitNl (s : String) : List String := (splitNlList s.toList).map String.mk

/-! ## Prompt post-processing (`genimg/core/prompt.py`) -/

/-- `_THINKING_START` (prompt.py:25). -/
def thinkingStartMarker : String := "Thinking..."

/-- `_THINKING_END` (prompt.py:26). -/
def thinkingEndMarker : String := "...done thinking."

/-- The thinking-block removal stage of `_strip_ollama_thinking`
(prompt.py:51-59), applied to the already-stripped text. -/
def stripThinkingStage (optimized : String) : String :=
  match strFind optimized thinkingStartMarker 0 with
  | none => optimized
  | some start_idx =>
      match strFind optimized thinkingEndMarker start_idx with
      | some end_idx =>
          let before := pyStrip (optimized.take start_idx)
          let after := pyStrip (optimized.drop (end_idx + thinkingEndMarker.length))
          pyStrip (before ++ " " ++ after)
      | none => pyStrip (optimized.take start_idx)

/-- The code-fence removal stage of `_strip_ollama_thinking`
(prompt.py:60-66). -/
def stripFenceStage (optimized : String) : String :=
  if pyStartsWith optimized "```" then
    let lines := pySplitNl optimized
    let lines1 :=
      match lines with
      | l0 :: rest => if pyStartsWith l0 "```" then rest else lines
      | [] => lines
    let lines2 :=
      match lines1.getLast? with
      | some last => if pyStrip last = "```" then lines1.dropLast else lines1
      | none => lines1
    pyStrip (String.intercalate "\n" lines2)
  else optimized

/-- `_strip_ollama_thinking` (prompt.py:40-67); the leading underscore of the
Python name is dropped. -/
def strip_ollama_thinking (text : String) : String :=
  if pyStrip text = "" then text
  else stripFenceStage (stripThinkingStage (pyStrip text))

/-! ## Cancellable operation runner -/

/-- Outcome of one invocation of the caller-supplied cancellation-check
callback at a given poll (openrouter.py:330-336, ollama.py:225-231,
prompt.py:206-211).  `raisesExc` is an exception that is a Python
`Exception` (caught and swallowed by `except Exception: pass`);
`raisesInterrupt` is a `KeyboardInterrupt`-style `BaseException` that is not
an `Exception` and therefore escapes that handler and propagates. -/
inductive CheckOutcome where
  | isFalse
  | isTrue
  | raisesExc
  | raisesInterrupt
deriving DecidableEq, Repr

/-- What the background worker left in `result_holder` / `exc_holder` by the
time it finished. -/
inductive WorkerOut (α : Type) where
  | ok (a : α)
  | err (e : GErr)
deriving DecidableEq, Repr

/-- Result of the controller around the poll loop for the HTTP-backed
providers. -/
inductive LoopResult (α : Type) where
  | done (a : α)
  | errored (e : GErr)
  | cancelled
  | interrupted
deriving DecidableEq, Repr

/-- After the loop breaks because the worker finished, the controller
re-raises the worker's stored exception or returns its stored result
(openrouter.py:338-343). -/
def workerFinish {α : Type} (w : WorkerOut α) : LoopResult α :=
  match w with
  | .ok a => .done a
  | .err e => .errored e

/-- HTTP-provider poll loop (openrouter.py:325-336; textually identical in
ollama.py:220-231 and image_gen.py:314-325).  `fuel` is the number of poll
iterations at which the worker thread is still alive: each iteration joins
the worker with a 0.25 s timeout, breaks out when it has finished, and
otherwise consults the callback at poll index `i`; `True` raises
CancellationError (caught by `except CancellationError: raise` and
re-raised), an interrupt-style exception propagates, and any other exception
is swallowed so polling continues. -/
def pollLoopHTTP {α : Type} : Nat → Nat → (Nat → CheckOutcome) → WorkerOut α → LoopResult α
  | 0, _, _, w => workerFinish w
  | fuel + 1, i, check, w =>
      match check i with
      | .isTrue => .cancelled
      | .raisesInterrupt => .interrupted
      | _ => pollLoopHTTP fuel (i + 1) check w

/-- Phase in which the optimizer's poll loop (prompt.py:200-211) ends. -/
inductive SubprocPhase where
  | finishedRun
  | cancelledRun
  | interruptedRun
deriving DecidableEq, Repr

/-- Process-control actions the controller can perform on the optimizer
subprocess after the loop. -/
inductive PAction where
  | terminate
  | joinGrace
  | kill
deriving DecidableEq, Repr

/-- Optimizer poll loop together with its cancellation aftermath
(prompt.py:200-217): a `True` from the callback sets `cancelled` and breaks;
the controller then — when a subprocess handle was recorded in
`process_holder` (`started`) — calls `proc.terminate()` followed by
`thread.join(timeout=5.0)`, a bounded grace wait on the worker thread, and
raises CancellationError regardless of whether that join completed.  The
returned action list records in order what the controller does to the
process before raising. -/
def pollLoopSubproc : Nat → Nat → (Nat → CheckOutcome) → Bool → SubprocPhase × List PAction
  | 0, _, _, _ => (.finishedRun, [])
  | fuel + 1, i, check, started =>
      match check i with
      | .isTrue =>
          (.cancelledRun, if started then [PAction.terminate, PAction.joinGrace] else [])
      | .raisesInterrupt => (.interruptedRun, [])
      | _ => pollLoopSubproc fuel (i + 1) check started

/-! ## Prompt optimizer (`genimg/core/prompt.py`) -/

/-- `validate_prompt` (prompt.py:70-87). -/
def validate_prompt (prompt : String) : Except GErr Unit :=
  if pyStrip prompt = "" then
    .error (.validationErr "Prompt cannot be empty" "prompt")
  else if (pyStrip prompt).length < 3 then
    .error (.validationErr
      "Prompt is too short. Please provide at least 3 characters." "prompt")
  else .ok ()

/-- The success-path tail shared by the cancellable run (prompt.py:222-234)
and `_run_ollama_sync` via `_run_ollama_communicate` (prompt.py:256-284):
a non-zero exit code is an APIError carrying the process's stderr; the
stripped output must be non-empty (else APIError "empty response"); only
then is the result written to the cache and returned. -/
def finishOllama (prompt model : String) (reference_hash : Option String)
    (cache : PromptCacheState) (stdout stderr : String) (returncode : Int) :
    Except GErr (String × PromptCacheState) :=
  if returncode ≠ 0 then
    .error (.apiErr ("Ollama optimization failed: " ++ stderr) returncode stderr)
  else
    let optimized := strip_ollama_thinking (pyStrip stdout)
    if optimized = "" then .error (.apiErr "Ollama returned an empty response" 0 "")
    else .ok (optimized, cacheSet cache prompt model optimized reference_hash)

/-- The cancellable section of `optimize_prompt_with_ollama`
(prompt.py:170-234), with the thread and subprocess abstracted: `fuel` is
the number of polls at which the worker is still alive, `check` the
callback's outcomes, `started` whether `process_holder` was filled, and `w`
what the worker thread left behind (stdout, stderr and return code on
completion, or the exception it stored).  Returns the call's result paired
with the list of process-control actions performed after a cancellation was
detected. -/
def optimize_cancellable_run (prompt model : String) (reference_hash : Option String)
    (cache : PromptCacheState) (fuel : Nat) (check : Nat → CheckOutcome) (started : Bool)
    (w : WorkerOut (String × String × Int)) :
    Except GErr (String × PromptCacheState) × List PAction :=
  match pollLoopSubproc fuel 0 check started with
  | (.cancelledRun, acts) => (.error (.cancellationErr "Optimization was cancelled."), acts)
  | (.interruptedRun, acts) => (.error .interrupted, acts)
  | (.finishedRun, acts) =>
      match w with
      | .err e => (.error e, acts)
      | .ok (stdout, stderr, rc) =>
          (finishOllama prompt model reference_hash cache stdout stderr rc, acts)

/-- Outcome of an entire Ollama subprocess run, for the paths where the
claims do not depend on the poll-by-poll schedule. -/
inductive RunOutcome where
  | completed (stdout stderr : String) (returncode : Int)
  | raised (e : GErr)
deriving DecidableEq, Repr

/-- `optimize_prompt_with_ollama` (prompt.py:109-234) with its environment
abstracted: `avail` is the result of `check_ollama_available()` and `run`
the outcome of the Ollama subprocess run (the synchronous and cancellable
paths funnel into the same success tail).  The control flow — prompt
validation, model defaulting, cache lookup skipped under `force_refresh`,
truthiness test on the cached value, availability check, then the run —
mirrors the source order. -/
def optimize_with_ollama_model (prompt : String) (modelArg : Option String)
    (reference_hash : Option String) (defaultModel : String) (force_refresh : Bool)
    (cache : PromptCacheState) (avail : Bool) (run : RunOutcome) :
    Except GErr (String × PromptCacheState) :=
  match validate_prompt prompt with
  | .error e => .error e
  | .ok _ =>
      let model := modelArg.getD defaultModel
      let hit : Option String :=
        if force_refresh then none
        else
          match cacheGet cache prompt model reference_hash with
          | some c => if c = "" then none else some c
          | none => none
      match hit with
      | some c => .ok (c, cache)
      | none =>
          if avail then
            match run with
            | .raised e => .error e
            | .completed stdout stderr rc =>
                finishOllama prompt model reference_hash cache stdout stderr rc
          else
            .error (.apiErr
              "Ollama is not available. Please install Ollama and ensure it is in your PATH. Visit https://ollama.ai for installation instructions."
              0 "")

/-- `optimize_prompt` (prompt.py:287-341) under the same abstractions;
`optimization_enabled` and `defaultModel` are the two configuration fields
the function reads. -/
def optimize_prompt_model (prompt : String) (modelArg : Option String)
    (reference_hash : Option String) (enable_cache : Bool) (optimization_enabled : Bool)
    (defaultModel : String) (cache : PromptCacheState) (avail : Bool) (run : RunOutcome) :
    Except GErr (String × PromptCacheState) :=
  match validate_prompt prompt with
  | .error e => .error e
  | .ok _ =>
      if optimization_enabled then
        let modelArg2 : Option String :=
          if enable_cache then some (modelArg.getD defaultModel) else modelArg
        let hit : Option String :=
          if enable_cache then
            match cacheGet cache prompt (modelArg.getD defaultModel) reference_hash with
            | some c => if c = "" then none else some c
            | none => none
          else none
        match hit with
        | some c => .ok (c, cache)
        | none =>
            optimize_with_ollama_model prompt modelArg2 reference_hash defaultModel
              (!enable_cache) cache avail run
      else .ok (prompt, cache)

/-- C1 (claim as frozen is FALSE): storing with `reference_hash = None` and
looking up with `reference_hash = ""` hits the same entry (the code's
truthiness test `if reference_hash:` skips both), and shifting the `"|"`
separator between the prompt and model fields produces the same derived key,
so `get` with a differing triple does not always return absent. -/
theorem C1_counterexample :
    cacheGet (cacheSet ([] : PromptCacheState) "p" "m" "v" none) "p" "m" (some "") = some "v"
    ∧ generate_key "a|b" "c" none = generate_key "a" "b|c" none := by
  constructor
  · rfl
  · rfl

/-- C1 (amended): `set` followed by `get` with the same triple returns the
stored value; `get` with a triple whose *derived key* differs returns absent
(on the entry written by that `set`); but key derivation is not injective on
triples: `reference_hash = None` collides with `reference_hash = ""`, because
`_generate_key` appends the reference hash only when truthy, and the fields
are joined with `"|"` so boundary shifts across the separator collide. -/
theorem C1_theorem (c : PromptCacheState) (p m v p2 m2 : String) (r r2 : Option String) :
    cacheGet (cacheSet c p m v r) p m r = some v
    ∧ (generate_key p m r ≠ generate_key p2 m2 r2 →
        cacheGet (cacheSet ([] : PromptCacheState) p m v r) p2 m2 r2 = none)
    ∧ generate_key p m none = generate_key p m (some "") := by
  refine ⟨dictGet_dictInsert_self c _ v, fun hne => ?_, rfl⟩
  show dictGet (dictInsert [] (generate_key p m r) v) (generate_key p2 m2 r2) = none
  have he : dictInsert ([] : List (String × String)) (generate_key p m r) v =
      [(generate_key p m r, v)] := rfl
  rw [he]
  simp only [dictGet, List.find?, decide_eq_false hne, Option.map_none']

theorem C1_witness :
    cacheGet (cacheSet ([] : PromptCacheState) "p" "m" "v" none) "p" "m" none = some "v"
    ∧ (generate_key "p" "m" none ≠ generate_key "q" "m" none)
    ∧ cacheGet (cacheSet ([] : PromptCacheState) "p" "m" "v" none) "q" "m" none = none := by
  have h := C1_theorem [] "p" "m" "v" "q" "m" none none
  exact ⟨h.1, by decide, h.2.1 (by decide)⟩

/-! ## Configuration (`genimg/core/config.py`) -/

/-- The configuration fields read by the checks modelled here, with the
defaults of config.py:21-28 and the `Config` dataclass (config.py:31-65).
An absent API key is the empty string, as in the source. -/
structure ConfigM where
  openrouter_api_key : String := ""
  openrouter_base_url : String := "https://openrouter.ai/api/v1"
  default_image_provider : String := "ollama"
  min_image_pixels : Int := 2500
  max_image_pixels : Int := 2000000
  aspect_w : Int := 1
  aspect_h : Int := 1
deriving DecidableEq, Repr

/-- `KNOWN_IMAGE_PROVIDERS` (config.py:28). -/
def KNOWN_IMAGE_PROVIDERS : List String := ["openrouter", "ollama"]

/-- `Config.validate` (config.py:115-161).  Error messages are reproduced
without the Python repr quoting and f-string interpolation beyond the
provider id. -/
def config_validate (cfg : ConfigM) : Except GErr Unit :=
  if cfg.min_image_pixels ≤ 0 then
    .error (.configurationErr "min_image_pixels must be positive")
  else if cfg.max_image_pixels < cfg.min_image_pixels then
    .error (.configurationErr "min_image_pixels must not exceed max_image_pixels")
  else if cfg.aspect_w ≤ 0 ∨ cfg.aspect_h ≤ 0 then
    .error (.configurationErr "aspect_ratio components must be positive")
  else if cfg.default_image_provider ∉ KNOWN_IMAGE_PROVIDERS then
    .error (.configurationErr
      ("Unknown default_image_provider: " ++ cfg.default_image_provider))
  else if cfg.default_image_provider = "openrouter" then
    if cfg.openrouter_api_key = "" then
      .error (.configurationErr
        "OpenRouter API key is required when default provider is openrouter. Set OPENROUTER_API_KEY environment variable or provide it explicitly.")
    else if !pyStartsWith cfg.openrouter_api_key "sk-" then
      .error (.configurationErr
        "OpenRouter API key appears to be invalid. It should start with sk-.")
    else .ok ()
  else .ok ()

/-! ## OpenRouter provider (`genimg/core/providers/openrouter.py`) -/

/-- `OpenRouterProvider._validate_config` (openrouter.py:65-72): only the
*presence* of the key is checked here; a CLI override replaces the config
key when supplied (`is not None`). -/
def openrouter_validate_config (cfg : ConfigM) (api_key_override : Option String) :
    Except GErr Unit :=
  let api_key := api_key_override.getD cfg.openrouter_api_key
  if api_key = "" then
    .error (.validationErr
      "OpenRouter API key is required. Set it via config or environment variable." "api_key")
  else .ok ()

/-- The HTTP request `OpenRouterProvider.generate` is about to issue. -/
structure RequestSpec where
  url : String
  authorization : String
deriving DecidableEq, Repr

/-- The pre-network phase of `OpenRouterProvider.generate`
(openrouter.py:241-262): validate the provider-specific preconditions, then
build the URL and Authorization header for the subsequent `requests.post`.
An `.ok` return means the HTTP request is issued with exactly this header
(which carries the key verbatim). -/
def openrouter_generate_prepare (cfg : ConfigM) (api_key_override : Option String) :
    Except GErr RequestSpec :=
  match openrouter_validate_config cfg api_key_override with
  | .error e => .error e
  | .ok _ =>
      let api_key := api_key_override.getD cfg.openrouter_api_key
      .ok ⟨cfg.openrouter_base_url ++ "/chat/completions", "Bearer " ++ api_key⟩

/-! ## Ollama provider response parsing (`genimg/core/providers/ollama.py`) -/

/-- A JSON value, as far as `_parse_response` inspects one. -/
inductive JVal where
  | s (v : String)
  | arr (l : List JVal)
  | num (n : Int)
  | jbool (b : Bool)
  | null

/-- Python truthiness (`not x`) on a JSON value. -/
def jfalsy : JVal → Bool
  | .s v => v = ""
  | .arr l => l.isEmpty
  | .num n => n = 0
  | .jbool b => !b
  | .null => true

/-- Python truthiness of `data.get(key)`: `None` (absent key) is falsy. -/
def optFalsy : Option JVal → Bool
  | none => true
  | some v => jfalsy v

/-- The decoded JSON body, projected onto the three keys the parser reads. -/
structure OllamaBody where
  image : Option JVal
  images : Option JVal
  response : Option JVal

/-- The key-priority extraction of `_parse_response` (ollama.py:83-87):
take `data.get("image")`; if that is falsy and `data.get("images")` is a
non-empty list, take its first element; if the accumulator is still falsy
and `data.get("response")` is a string, take it. -/
def extract_image_b64 (d : OllamaBody) : Option JVal :=
  let i1 := d.image
  let i2 :=
    if optFalsy i1 then
      match d.images with
      | some (.arr (h :: _)) => some h
      | _ => i1
    else i1
  let i3 :=
    if optFalsy i2 then
      match d.response with
      | some (.s v) => some (.s v)
      | _ => i2
    else i2
  i3

/-- `GenerationResult` (image_gen.py:43-57), with the PIL image abstracted
to its decoded bytes and the wall-clock duration to a `Nat`. -/
structure GenResultM where
  image : List Nat
  fmt : String
  generation_time : Nat
  model_used : String
  prompt_used : String
  had_reference : Bool

/-- The JSON branch of `OllamaProvider._parse_response` (ollama.py:75-108):
`b64decode` abstracts `base64.b64decode` (`none` models the `ValueError`
the code maps to an APIError), `pilOpen` abstracts whether `Image.open`
succeeds on the decoded bytes (a failure there propagates uncaught).  A
body with no usable value under any of the three keys is an APIError; a
truthy non-string value reaches `b64decode` and raises an uncaught
`TypeError`.  The Python APIError also carries `response=str(data)`, which
the embedding leaves as the empty string. -/
def ollama_parse_json (b64decode : String → Option (List Nat))
    (pilOpen : List Nat → Bool) (d : OllamaBody) (model prompt : String)
    (generation_time : Nat) : Except GErr GenResultM :=
  let b := extract_image_b64 d
  if optFalsy b then
    .error (.apiErr
      "No image in Ollama response. The model may not support image generation." 0 "")
  else
    match b with
    | some (.s v) =>
        match b64decode v with
        | none => .error (.apiErr "Invalid base64 image in Ollama response" 0 "")
        | some bytes =>
            if pilOpen bytes then
              .ok ⟨bytes, "png", generation_time, model, prompt, false⟩
            else .error (.uncaughtException "PIL.UnidentifiedImageError")
    | _ => .error (.uncaughtException "TypeError")

/-! ## CLI generate flow (`genimg/cli/commands.py`) -/

/-- The externally visible steps of `do_generate` that the reference-image
claims are about. -/
inductive GStep where
  | refSupportCheck
  | validatePromptStep
  | processReference
  | describeReference
  | dispatch (refSent : Bool)
deriving DecidableEq, Repr

/-- The reference-image handling slice of `do_generate`
(commands.py:148-263): step 2 rejects a supplied reference image only when
the `--use-reference-description` flag is off and the resolved provider is
registered with `supports_reference_image = False` (commands.py:162-169);
step 3 validates the prompt; step 4 processes the reference image; step 4b
describes it when requested; step 6 sends the processed image to the
provider only when the provider is registered and its capability flag is
true (commands.py:239-244).  Returns the ordered step trace together with
the result: the error raised, or — on success — whether the reference image
was sent to the provider. -/
def do_generate_ref_flow (registry : RegistryState) (default_provider prompt : String)
    (hasReference use_reference_description : Bool) (providerOpt : Option String) :
    List GStep × Except GErr Bool :=
  let provider_eff := providerOpt.getD default_provider
  let checkTrace :=
    if hasReference && !use_reference_description then [GStep.refSupportCheck] else []
  let rejected : Bool :=
    if hasReference && !use_reference_description then
      match registryGet registry provider_eff with
      | some impl => !impl.supports_reference_image
      | none => false
    else false
  if rejected then
    (checkTrace, .error (.validationErr
      ("Reference images are not supported for provider " ++ provider_eff
        ++ ". Use --provider openrouter for reference image support.") "reference_image"))
  else
    match validate_prompt prompt with
    | .error e => (checkTrace ++ [GStep.validatePromptStep], .error e)
    | .ok _ =>
        let t4 := if hasReference then [GStep.processReference] else []
        let t4b :=
          if use_reference_description && hasReference then [GStep.describeReference] else []
        let supports :=
          match registryGet registry provider_eff with
          | some impl => impl.supports_reference_image
          | none => false
        let refSent := hasReference && supports
        (checkTrace ++ [GStep.validatePromptStep] ++ t4 ++ t4b ++ [GStep.dispatch refSent],
          .ok refSent)

theorem subAt_self_append (s t : List Char) : subAt s (s ++ t) = true := by
  induction s with
  | nil => rfl
  | cons a as ih => simp [subAt, ih]

theorem findFrom_append_ne_none (sub pre post : List Char) (i : Nat) :
    findFrom sub (pre ++ (sub ++ post)) i ≠ none := by
  induction pre generalizing i with
  | nil =>
      cases sub with
      | nil => cases post <;> simp [findFrom, subAt]
      | cons c t =>
          have hs : subAt (c :: t) (c :: (t ++ post)) = true := subAt_self_append (c :: t) post
          simp only [List.nil_append, List.cons_append, findFrom]
          split
          · simp
          · rename_i hcond
            exact absurd hs hcond
  | cons c pre ih =>
      simp only [List.cons_append, findFrom]
      split
      · simp
      · exact ih (i + 1)

theorem pollLoopHTTP_all_benign {α : Type} (fuel i : Nat) (check : Nat → CheckOutcome)
    (w : WorkerOut α) (h : ∀ j, check j = .isFalse ∨ check j = .raisesExc) :
    pollLoopHTTP fuel i check w = workerFinish w := by
  induction fuel generalizing i with
  | zero => rfl
  | succ n ih =>
      rcases h i with hc | hc
      · simp only [pollLoopHTTP, hc]; exact ih (i + 1)
      · simp only [pollLoopHTTP, hc]; exact ih (i + 1)

theorem pollLoopSubproc_all_benign (fuel i : Nat) (check : Nat → CheckOutcome)
    (started : Bool) (h : ∀ j, check j = .isFalse ∨ check j = .raisesExc) :
    pollLoopSubproc fuel i check started = (.finishedRun, []) := by
  induction fuel generalizing i with
  | zero => rfl
  | succ n ih =>
      rcases h i with hc | hc
      · simp only [pollLoopSubproc, hc]; exact ih (i + 1)
      · simp only [pollLoopSubproc, hc]; exact ih (i + 1)

theorem pollLoopSubproc_cancel_acts (fuel i : Nat) (check : Nat → CheckOutcome)
    (started : Bool) (h : (pollLoopSubproc fuel i check started).1 = .cancelledRun) :
    (pollLoopSubproc fuel i check started).2 =
      (if started then [PAction.terminate, PAction.joinGrace] else []) := by
  induction fuel generalizing i with
  | zero => exact absurd h (by simp [pollLoopSubproc])
  | succ n ih =>
      cases hc : check i with
      | isTrue => simp only [pollLoopSubproc, hc]
      | raisesInterrupt =>
          rw [show pollLoopSubproc (n + 1) i check started = (.interruptedRun, []) from by
            simp only [pollLoopSubproc, hc]] at h
          exact absurd h (by simp)
      | isFalse =>
          simp only [pollLoopSubproc, hc] at h ⊢
          exact ih (i + 1) h
      | raisesExc =>
          simp only [pollLoopSubproc, hc] at h ⊢
          exact ih (i + 1) h

/-- C2 (claim as frozen is FALSE): in a cancelled subprocess-backed
optimization with the process started, the controller raises the
Cancellation error having performed only a graceful `terminate` and a
bounded 5-second join on the worker thread — it never issues a forced kill,
even though the bounded join gives no confirmation that termination
completed; shown at a concrete cancelled run. -/
theorem C2_counterexample :
    (optimize_cancellable_run "a cat" "m" none [] 3 (fun _ => CheckOutcome.isTrue) true
        (WorkerOut.ok ("out", "", 0))).1
      = Except.error (GErr.cancellationErr "Optimization was cancelled.")
    ∧ PAction.kill ∉
        (optimize_cancellable_run "a cat" "m" none [] 3 (fun _ => CheckOutcome.isTrue) true
          (WorkerOut.ok ("out", "", 0))).2 := by
  exact ⟨rfl, by decide⟩

/-- C2 (amended): when the cancellation-check returns true during a
subprocess-backed optimization run, the controller raises the Cancellation
error after calling `terminate()` on the subprocess (when one was started)
and joining the worker thread with a bounded 5-second grace timeout; no
forced kill is ever issued and the raise happens whether or not the join
completed, so process exit is not confirmed. -/
theorem C2_theorem (p m : String) (r : Option String) (c : PromptCacheState)
    (fuel : Nat) (check : Nat → CheckOutcome) (started : Bool)
    (w : WorkerOut (String × String × Int))
    (h : (pollLoopSubproc fuel 0 check started).1 = SubprocPhase.cancelledRun) :
    (optimize_cancellable_run p m r c fuel check started w).1
        = Except.error (GErr.cancellationErr "Optimization was cancelled.")
    ∧ (optimize_cancellable_run p m r c fuel check started w).2
        = (if started then [PAction.terminate, PAction.joinGrace] else [])
    ∧ PAction.kill ∉ (optimize_cancellable_run p m r c fuel check started w).2 := by
  have hacts := pollLoopSubproc_cancel_acts fuel 0 check started h
  rcases hpr : pollLoopSubproc fuel 0 check started with ⟨ph, acts⟩
  rw [hpr] at h hacts
  simp only at h hacts
  cases ph with
  | finishedRun => exact absurd h (by simp)
  | interruptedRun => exact absurd h (by simp)
  | cancelledRun =>
      refine ⟨?_, ?_, ?_⟩
      · simp [optimize_cancellable_run, hpr]
      · simp [optimize_cancellable_run, hpr, hacts]
      · simp only [optimize_cancellable_run, hpr, hacts]
        cases started <;> decide

theorem C2_witness :
    (optimize_cancellable_run "p q" "m" none [] 1 (fun _ => CheckOutcome.isTrue) true
        (WorkerOut.ok ("", "", 0))).1
      = Except.error (GErr.cancellationErr "Optimization was cancelled.")
    ∧ (optimize_cancellable_run "p q" "m" none [] 1 (fun _ => CheckOutcome.isTrue) true
        (WorkerOut.ok ("", "", 0))).2 = [PAction.terminate, PAction.joinGrace] := by
  have h := C2_theorem "p q" "m" none [] 1 (fun _ => CheckOutcome.isTrue) true
    (WorkerOut.ok ("", "", 0)) (by decide)
  exact ⟨h.1, h.2.1⟩

/-- C3: if the cancellation-check callback only ever returns false or raises
a non-interrupt exception, the poll loop — in both the HTTP-provider form
and the optimizer-subprocess form — runs to worker completion and the
operation finishes with the background worker's stored result or error;
an interrupt-style exception from the callback is propagated at the very
poll where it is raised. -/
theorem C3_theorem (α : Type) (fuel i : Nat) (check : Nat → CheckOutcome)
    (w : WorkerOut α) (started : Bool) :
    ((∀ j, check j = CheckOutcome.isFalse ∨ check j = CheckOutcome.raisesExc) →
      pollLoopHTTP fuel i check w = workerFinish w
      ∧ pollLoopSubproc fuel i check started = (SubprocPhase.finishedRun, []))
    ∧ (check i = CheckOutcome.raisesInterrupt →
      pollLoopHTTP (fuel + 1) i check w = LoopResult.interrupted
      ∧ pollLoopSubproc (fuel + 1) i check started = (SubprocPhase.interruptedRun, [])) := by
  constructor
  · intro h
    exact ⟨pollLoopHTTP_all_benign fuel i check w h,
      pollLoopSubproc_all_benign fuel i check started h⟩
  · intro h
    constructor
    · simp only [pollLoopHTTP, h]
    · simp only [pollLoopSubproc, h]

theorem C3_witness :
    pollLoopHTTP 3 0 (fun _ => CheckOutcome.raisesExc) (WorkerOut.ok (7 : Nat))
        = LoopResult.done 7
    ∧ pollLoopSubproc 3 0 (fun _ => CheckOutcome.raisesExc) true
        = (SubprocPhase.finishedRun, [])
    ∧ pollLoopHTTP 1 0 (fun _ => CheckOutcome.raisesInterrupt) (WorkerOut.ok (7 : Nat))
        = LoopResult.interrupted := by
  have h1 := C3_theorem Nat 3 0 (fun _ => CheckOutcome.raisesExc) (WorkerOut.ok 7) true
  have h2 := C3_theorem Nat 0 0 (fun _ => CheckOutcome.raisesInterrupt) (WorkerOut.ok 7) true
  have hb := h1.1 (fun j => Or.inr rfl)
  exact ⟨hb.1, hb.2, (h2.2 rfl).1⟩

/-- C4 (claim as frozen is FALSE): a non-empty credential that does not
match the documented "sk-" prefix passes the provider's own validation, and
`generate` proceeds to issue the request carrying the malformed credential
verbatim in the Authorization header — no Validation error is raised in the
provider for this case. -/
theorem C4_counterexample :
    openrouter_generate_prepare { openrouter_api_key := "badkey" } none
      = Except.ok ⟨"https://openrouter.ai/api/v1/chat/completions", "Bearer badkey"⟩ := by
  rfl

/-- C4 (amended): the provider's `generate` raises a Validation error before
any network I/O exactly when the effective credential is absent (empty); any
non-empty credential — including one not matching the "sk-" prefix — is sent
verbatim in the request header.  The prefix pattern is enforced separately
by `Config.validate`, which raises a Configuration error (not a Validation
error), and only when the default image provider is "openrouter". -/
theorem C4_theorem (cfg : ConfigM) (o : Option String) :
    (o.getD cfg.openrouter_api_key = "" →
      openrouter_generate_prepare cfg o
        = Except.error (GErr.validationErr
            "OpenRouter API key is required. Set it via config or environment variable."
            "api_key"))
    ∧ (o.getD cfg.openrouter_api_key ≠ "" →
      openrouter_generate_prepare cfg o
        = Except.ok ⟨cfg.openrouter_base_url ++ "/chat/completions",
            "Bearer " ++ o.getD cfg.openrouter_api_key⟩)
    ∧ (0 < cfg.min_image_pixels → cfg.min_image_pixels ≤ cfg.max_image_pixels →
        0 < cfg.aspect_w → 0 < cfg.aspect_h →
        cfg.default_image_provider = "openrouter" →
        cfg.openrouter_api_key ≠ "" →
        pyStartsWith cfg.openrouter_api_key "sk-" = false →
        config_validate cfg
          = Except.error (GErr.configurationErr
              "OpenRouter API key appears to be invalid. It should start with sk-.")) := by
  refine ⟨?_, ?_, ?_⟩
  · intro h
    simp [openrouter_generate_prepare, openrouter_validate_config, h]
  · intro h
    simp [openrouter_generate_prepare, openrouter_validate_config, if_neg h]
  · intro h1 h2 h3 h4 h5 h6 h7
    simp only [config_validate]
    rw [if_neg (by omega), if_neg (by omega), if_neg (by push_neg; omega)]
    rw [if_neg (by simp [KNOWN_IMAGE_PROVIDERS, h5]), if_pos h5, if_neg h6,
      if_pos (by simp [h7])]

theorem C4_witness :
    openrouter_generate_prepare { openrouter_api_key := "" } none
        = Except.error (GErr.validationErr
            "OpenRouter API key is required. Set it via config or environment variable."
            "api_key")
    ∧ openrouter_generate_prepare { openrouter_api_key := "nope" } none
        = Except.ok ⟨"https://openrouter.ai/api/v1/chat/completions", "Bearer nope"⟩
    ∧ config_validate { openrouter_api_key := "nope", default_image_provider := "openrouter" }
        = Except.error (GErr.configurationErr
            "OpenRouter API key appears to be invalid. It should start with sk-.") := by
  have ha := C4_theorem { openrouter_api_key := "" } none
  have hb := C4_theorem { openrouter_api_key := "nope" } none
  have hc := C4_theorem { openrouter_api_key := "nope", default_image_provider := "openrouter" }
    none
  exact ⟨ha.1 (by decide), hb.2.1 (by decide),
    hc.2.2 (by decide) (by decide) (by decide) (by decide) (by decide) (by decide) (by decide)⟩

/-- C5: the base64 image in a JSON body is extracted by trying the keys in
the fixed priority order `image`, then the first element of `images`, then
`response`; a body carrying only a `response` string decodes via that
third-priority key into a `GenerationResult` with format "png"; a body with
no usable (truthy) value under any of the three keys is an API error. -/
theorem C5_theorem (b64decode : String → Option (List Nat)) (pilOpen : List Nat → Bool)
    (model prompt r v : String) (g : Nat) (bytes : List Nat) (d : OllamaBody) :
    (r ≠ "" → b64decode r = some bytes → pilOpen bytes = true →
      ollama_parse_json b64decode pilOpen ⟨none, none, some (JVal.s r)⟩ model prompt g
        = Except.ok ⟨bytes, "png", g, model, prompt, false⟩)
    ∧ (v ≠ "" → d.image = some (JVal.s v) → extract_image_b64 d = some (JVal.s v))
    ∧ (∀ (h : JVal) (t : List JVal),
        optFalsy d.image = true → d.images = some (JVal.arr (h :: t)) →
        jfalsy h = false → extract_image_b64 d = some h)
    ∧ (optFalsy (extract_image_b64 d) = true →
      ollama_parse_json b64decode pilOpen d model prompt g
        = Except.error (GErr.apiErr
            "No image in Ollama response. The model may not support image generation." 0 "")) := by
  refine ⟨?_, ?_, ?_, ?_⟩
  · intro hr hb hp
    have hext : extract_image_b64 ⟨none, none, some (JVal.s r)⟩ = some (JVal.s r) := rfl
    simp only [ollama_parse_json, hext, optFalsy, jfalsy]
    rw [decide_eq_false hr]
    simp [hb, hp]
  · intro hv hi
    have hfal : optFalsy d.image = false := by
      rw [hi]; simp only [optFalsy, jfalsy]; rw [decide_eq_false hv]
    have hfal2 : optFalsy (some (JVal.s v)) = false := by
      simp only [optFalsy, jfalsy]; rw [decide_eq_false hv]
    simp only [extract_image_b64, hfal, Bool.false_eq_true, if_false, hi, hfal2]
  · intro h t hfal him hjf
    have hfal2 : optFalsy (some h) = false := by simp [optFalsy, hjf]
    simp only [extract_image_b64, hfal, him]
    simp [hfal2]
  · intro hfal
    simp [ollama_parse_json, hfal]

theorem C5_witness :
    ollama_parse_json
        (fun s => if s = "QUJD" then some [65, 66, 67] else none) (fun _ => true)
        ⟨none, none, some (JVal.s "QUJD")⟩ "mdl" "a cat" 2
      = Except.ok ⟨[65, 66, 67], "png", 2, "mdl", "a cat", false⟩
    ∧ extract_image_b64 ⟨some (JVal.s "abc"), some (JVal.arr [JVal.s "zzz"]), none⟩
      = some (JVal.s "abc")
    ∧ extract_image_b64 ⟨some (JVal.s ""), some (JVal.arr [JVal.s "zzz"]), none⟩
      = some (JVal.s "zzz")
    ∧ ollama_parse_json
        (fun s => if s = "QUJD" then some [65, 66, 67] else none) (fun _ => true)
        ⟨none, some (JVal.arr []), none⟩ "mdl" "a cat" 2
      = Except.error (GErr.apiErr
          "No image in Ollama response. The model may not support image generation." 0 "") := by
  have h1 := C5_theorem (fun s => if s = "QUJD" then some [65, 66, 67] else none)
    (fun _ => true) "mdl" "a cat" "QUJD" "abc" 2 [65, 66, 67]
    ⟨some (JVal.s "abc"), some (JVal.arr [JVal.s "zzz"]), none⟩
  have h2 := C5_theorem (fun s => if s = "QUJD" then some [65, 66, 67] else none)
    (fun _ => true) "mdl" "a cat" "QUJD" "x" 2 [65, 66, 67]
    ⟨some (JVal.s ""), some (JVal.arr [JVal.s "zzz"]), none⟩
  have h3 := C5_theorem (fun s => if s = "QUJD" then some [65, 66, 67] else none)
    (fun _ => true) "mdl" "a cat" "QUJD" "x" 2 [65, 66, 67]
    ⟨none, some (JVal.arr []), none⟩
  refine ⟨h1.1 (by decide) rfl rfl, h1.2.1 (by decide) rfl, ?_, h3.2.2.2 rfl⟩
  exact h2.2.2.1 (JVal.s "zzz") [] rfl rfl (by decide)

/-- C6: post-processing of raw optimizer output first removes the
thinking-delimited reasoning block (text before the start marker joined with
the text after the end marker; only the text before the start marker when
the end marker is absent), then strips a single leading/trailing
triple-backtick fence; each described branch is checked, including the
claim's concrete round-trip input, which strips to exactly "final result". -/
theorem C6_theorem :
    strip_ollama_thinking
        "Thinking... reasoning here ...done thinking.\n```\nfinal result\n```"
      = "final result"
    ∧ strip_ollama_thinking "keep this Thinking... dropped tail" = "keep this"
    ∧ strip_ollama_thinking "A Thinking... hidden ...done thinking. B" = "A B"
    ∧ strip_ollama_thinking "```\nhello world\n```" = "hello world"
    ∧ strip_ollama_thinking "plain text" = "plain text"
    ∧ (∀ text : String,
        strip_ollama_thinking text =
          if pyStrip text = "" then text
          else stripFenceStage (stripThinkingStage (pyStrip text))) := by
  refine ⟨by decide, by decide, by decide, by decide, by decide, fun text => rfl⟩

theorem dictGet_append_single {α : Type} (d : List (String × α)) (k k' : String) (v : α)
    (hne : k' ≠ k) : dictGet (d ++ [(k, v)]) k' = dictGet d k' := by
  induction d with
  | nil =>
      simp only [List.nil_append, dictGet, List.find?]
      rw [decide_eq_false (fun h => hne h.symm)]
  | cons kv t ih =>
      by_cases hk : kv.1 = k'
      · simp [dictGet, List.find?, hk]
      · simp only [List.cons_append, dictGet, List.find?, decide_eq_false hk]
        exact ih

theorem dictGet_overwrite_ne {α : Type} (d : List (String × α)) (k k' : String) (v : α)
    (hne : k' ≠ k) :
    dictGet (d.map (fun kv => if kv.1 = k then (k, v) else kv)) k' = dictGet d k' := by
  induction d with
  | nil => rfl
  | cons kv t ih =>
      by_cases hk : kv.1 = k
      · simp only [List.map_cons, if_pos hk, dictGet, List.find?]
        rw [decide_eq_false (fun h => hne h.symm), decide_eq_false (fun h => hne (hk ▸ h).symm)]
        exact ih
      · simp only [List.map_cons, if_neg hk, dictGet, List.find?]
        by_cases hk' : kv.1 = k'
        · rw [decide_eq_true hk']
        · rw [decide_eq_false hk']
          exact ih

/-- Full characterisation of lookup after insert-or-overwrite. -/
theorem dictGet_dictInsert {α : Type} (d : List (String × α)) (k : String) (v : α)
    (k' : String) :
    dictGet (dictInsert d k v) k' = if k' = k then some v else dictGet d k' := by
  by_cases h : k' = k
  · subst h; rw [if_pos rfl]; exact dictGet_dictInsert_self d k' v
  · rw [if_neg h]
    unfold dictInsert
    cases hb : d.any (fun kv => kv.1 = k) with
    | false =>
        rw [if_neg (by simp)]
        exact dictGet_append_single d k k' v h
    | true =>
        rw [if_pos rfl]
        exact dictGet_overwrite_ne d k k' v h

/-- Inversion for the shared success tail: a successful `finishOllama` has
exit code handling passed, a non-empty stripped output, and the cache write
of exactly that output. -/
theorem finishOllama_ok (p m : String) (r : Option String) (cache : PromptCacheState)
    (out err : String) (rc : Int) (s : String) (c' : PromptCacheState)
    (h : finishOllama p m r cache out err rc = .ok (s, c')) :
    s ≠ "" ∧ s = strip_ollama_thinking (pyStrip out) ∧ c' = cacheSet cache p m s r := by
  simp only [finishOllama] at h
  by_cases hrc : rc ≠ 0
  · rw [if_pos hrc] at h; cases h
  · rw [if_neg hrc] at h
    by_cases he : strip_ollama_thinking (pyStrip out) = ""
    · rw [if_pos he] at h; cases h
    · rw [if_neg he] at h
      simp only [Except.ok.injEq, Prod.mk.injEq] at h
      refine ⟨h.1 ▸ he, h.1.symm, ?_⟩
      rw [← h.1, ← h.2]

/-- Inversion for `optimize_prompt_with_ollama` under `force_refresh`: a
successful run validated the prompt, bypassed the cache lookup, and wrote
its non-empty result under (prompt, resolved model, reference_hash). -/
theorem optimize_with_ollama_force_ok (p : String) (mo : Option String)
    (r : Option String) (dm : String) (cache : PromptCacheState) (avail : Bool)
    (run : RunOutcome) (s : String) (c' : PromptCacheState)
    (h : optimize_with_ollama_model p mo r dm true cache avail run = .ok (s, c')) :
    s ≠ "" ∧ c' = cacheSet cache p (mo.getD dm) s r ∧ validate_prompt p = .ok () := by
  simp only [optimize_with_ollama_model] at h
  cases hv : validate_prompt p with
  | error e => rw [hv] at h; cases h
  | ok u =>
      rw [hv] at h
      simp only [if_true, ite_true] at h
      cases avail with
      | false => simp only [Bool.false_eq_true, if_false] at h; cases h
      | true =>
          simp only [if_true, ite_true] at h
          cases run with
          | raised e => cases h
          | completed out errS rc =>
              have hf := finishOllama_ok p (mo.getD dm) r cache out errS rc s c' h
              exact ⟨hf.1, hf.2.2, rfl⟩

/-- Inversion for `optimize_prompt_with_ollama` with either cache mode: a
successful call returns a non-empty string and leaves the cache either
untouched (cache hit) or extended by exactly the returned value. -/
theorem optimize_with_ollama_ok_inv (p : String) (mo : Option String)
    (r : Option String) (dm : String) (fr : Bool) (cache : PromptCacheState)
    (avail : Bool) (run : RunOutcome) (s : String) (c' : PromptCacheState)
    (h : optimize_with_ollama_model p mo r dm fr cache avail run = .ok (s, c')) :
    s ≠ "" ∧ (c' = cache ∨ c' = cacheSet cache p (mo.getD dm) s r) := by
  simp only [optimize_with_ollama_model] at h
  cases hv : validate_prompt p with
  | error e => rw [hv] at h; cases h
  | ok u =>
      rw [hv] at h
      cases fr with
      | true =>
          simp only [if_true, ite_true] at h
          cases avail with
          | false => simp only [Bool.false_eq_true, if_false] at h; cases h
          | true =>
              simp only [if_true, ite_true] at h
              cases run with
              | raised e => cases h
              | completed out errS rc =>
                  have hf := finishOllama_ok p (mo.getD dm) r cache out errS rc s c' h
                  exact ⟨hf.1, Or.inr hf.2.2⟩
      | false =>
          simp only [Bool.false_eq_true, if_false] at h
          cases hc : cacheGet cache p (mo.getD dm) r with
          | some cv =>
              simp only [hc] at h
              by_cases hce : cv = ""
              · rw [if_pos hce] at h
                cases avail with
                | false => simp only [Bool.false_eq_true, if_false] at h; cases h
                | true =>
                    simp only [if_true, ite_true] at h
                    cases run with
                    | raised e => cases h
                    | completed out errS rc =>
                        have hf := finishOllama_ok p (mo.getD dm) r cache out errS rc s c' h
                        exact ⟨hf.1, Or.inr hf.2.2⟩
              · rw [if_neg hce] at h
                simp only [Except.ok.injEq, Prod.mk.injEq] at h
                exact ⟨h.1 ▸ hce, Or.inl h.2.symm⟩
          | none =>
              simp only [hc] at h
              cases avail with
              | false => simp only [Bool.false_eq_true, if_false] at h; cases h
              | true =>
                  simp only [if_true, ite_true] at h
                  cases run with
                  | raised e => cases h
                  | completed out errS rc =>
                      have hf := finishOllama_ok p (mo.getD dm) r cache out errS rc s c' h
                      exact ⟨hf.1, Or.inr hf.2.2⟩

/-- C7 (claim as frozen is FALSE): with the `--use-reference-description`
flag set, a reference image supplied together with a provider whose
capability flag is false (the built-in registry with resolved provider
"ollama") raises no Validation error — the call completes and the reference
image is not sent to the provider. -/
theorem C7_counterexample :
    (do_generate_ref_flow
        [("openrouter", ProviderImpl.mk true), ("ollama", ProviderImpl.mk false)]
        "openrouter" "a cat" true true (some "ollama")).2 = Except.ok false
    ∧ GStep.refSupportCheck ∉
        (do_generate_ref_flow
          [("openrouter", ProviderImpl.mk true), ("ollama", ProviderImpl.mk false)]
          "openrouter" "a cat" true true (some "ollama")).1 := by
  exact ⟨rfl, by decide⟩

/-- C7 (amended): when a reference image is supplied *without* the
use-reference-description flag and the resolved provider is registered with
capability flag false, the call fails with a Validation error on the
reference_image field whose message names that provider, before any image
processing or provider dispatch is attempted; with the description flag set
(or an unregistered provider id) the check is skipped and the raw image is
simply not sent to the provider. -/
theorem C7_theorem (registry : RegistryState) (dp p : String) (po : Option String)
    (impl : ProviderImpl)
    (h1 : registryGet registry (po.getD dp) = some impl)
    (h2 : impl.supports_reference_image = false) :
    (do_generate_ref_flow registry dp p true false po).1 = [GStep.refSupportCheck]
    ∧ (do_generate_ref_flow registry dp p true false po).2
        = Except.error (GErr.validationErr
            ("Reference images are not supported for provider " ++ po.getD dp
              ++ ". Use --provider openrouter for reference image support.")
            "reference_image")
    ∧ GStep.processReference ∉ (do_generate_ref_flow registry dp p true false po).1
    ∧ (∀ b, GStep.dispatch b ∉ (do_generate_ref_flow registry dp p true false po).1)
    ∧ strFind ("Reference images are not supported for provider " ++ po.getD dp
          ++ ". Use --provider openrouter for reference image support.") (po.getD dp) 0
        ≠ none := by
  have hflow : do_generate_ref_flow registry dp p true false po
      = ([GStep.refSupportCheck], Except.error (GErr.validationErr
          ("Reference images are not supported for provider " ++ po.getD dp
            ++ ". Use --provider openrouter for reference image support.")
          "reference_image")) := by
    simp only [do_generate_ref_flow, h1, h2]
    simp
  refine ⟨by rw [hflow], by rw [hflow], by rw [hflow]; simp, fun b => by rw [hflow]; simp, ?_⟩
  show findFrom (po.getD dp).toList
      (("Reference images are not supported for provider " ++ po.getD dp
        ++ ". Use --provider openrouter for reference image support.").toList.drop 0) 0 ≠ none
  rw [List.drop_zero]
  have hmsg : ("Reference images are not supported for provider " ++ po.getD dp
        ++ ". Use --provider openrouter for reference image support.").toList
      = ("Reference images are not supported for provider ").toList
        ++ ((po.getD dp).toList
          ++ (". Use --provider openrouter for reference image support.").toList) := by
    show (("Reference images are not supported for provider " ++ po.getD dp)
        ++ ". Use --provider openrouter for reference image support.").data = _
    rw [String.data_append, String.data_append, List.append_assoc]
    rfl
  rw [hmsg]
  exact findFrom_append_ne_none _ _ _ 0

theorem C7_witness :
    (do_generate_ref_flow
        [("openrouter", ProviderImpl.mk true), ("ollama", ProviderImpl.mk false)]
        "openrouter" "a cat" true false (some "ollama")).2
      = Except.error (GErr.validationErr
          ("Reference images are not supported for provider ollama. Use --provider openrouter for reference image support.")
          "reference_image")
    ∧ GStep.processReference ∉
        (do_generate_ref_flow
          [("openrouter", ProviderImpl.mk true), ("ollama", ProviderImpl.mk false)]
          "openrouter" "a cat" true false (some "ollama")).1
    ∧ strFind "Reference images are not supported for provider ollama. Use --provider openrouter for reference image support." "ollama" 0 ≠ none := by
  have h := C7_theorem
    [("openrouter", ProviderImpl.mk true), ("ollama", ProviderImpl.mk false)]
    "openrouter" "a cat" (some "ollama") (ProviderImpl.mk false) (by rfl) rfl
  exact ⟨h.2.1, h.2.2.1, h.2.2.2.2⟩

/-- C8: a successful optimizer run stores the rewritten prompt in the cache
under (original prompt, resolved model, reference_hash), including when the
lookup was disabled for this call (`force_refresh` on the worker entry
point, `enable_cache = False` on `optimize_prompt`), so a subsequent
cache-enabled lookup with the same triple hits and returns it without a new
run. -/
theorem C8_theorem (p : String) (mo : Option String) (r : Option String) (dm : String)
    (cache : PromptCacheState) (avail avail2 : Bool) (run run2 : RunOutcome)
    (s : String) (c' : PromptCacheState) :
    (optimize_with_ollama_model p mo r dm true cache avail run = .ok (s, c') →
      cacheGet c' p (mo.getD dm) r = some s)
    ∧ (optimize_prompt_model p mo r false true dm cache avail run = .ok (s, c') →
      cacheGet c' p (mo.getD dm) r = some s
      ∧ optimize_prompt_model p mo r true true dm c' avail2 run2 = .ok (s, c')) := by
  constructor
  · intro h
    have hf := optimize_with_ollama_force_ok p mo r dm cache avail run s c' h
    rw [hf.2.1]
    exact dictGet_dictInsert_self cache _ s
  · intro h
    have hw : optimize_with_ollama_model p mo r dm true cache avail run = .ok (s, c') := by
      simp only [optimize_prompt_model] at h
      cases hv : validate_prompt p with
      | error e => rw [hv] at h; cases h
      | ok u =>
          rw [hv] at h
          simpa using h
    have hf := optimize_with_ollama_force_ok p mo r dm cache avail run s c' hw
    have hget : cacheGet c' p (mo.getD dm) r = some s := by
      rw [hf.2.1]; exact dictGet_dictInsert_self cache _ s
    refine ⟨hget, ?_⟩
    simp only [optimize_prompt_model, hf.2.2]
    simp [hget, hf.1]

theorem C8_witness :
    optimize_with_ollama_model "a cat" (some "m") none "d" true [] true
        (RunOutcome.completed "A shiny cat" "" 0)
      = Except.ok ("A shiny cat", cacheSet [] "a cat" "m" "A shiny cat" none)
    ∧ cacheGet (cacheSet [] "a cat" "m" "A shiny cat" none) "a cat" "m" none
      = some "A shiny cat"
    ∧ optimize_prompt_model "a cat" (some "m") none true true "d"
        (cacheSet [] "a cat" "m" "A shiny cat" none) false (RunOutcome.raised GErr.interrupted)
      = Except.ok ("A shiny cat", cacheSet [] "a cat" "m" "A shiny cat" none) := by
  have h := C8_theorem "a cat" (some "m") none "d" [] true false
    (RunOutcome.completed "A shiny cat" "" 0) (RunOutcome.raised GErr.interrupted)
    "A shiny cat" (cacheSet [] "a cat" "m" "A shiny cat" none)
  have h2 := h.2 (by rfl)
  exact ⟨by rfl, h2.1, h2.2⟩

/-- C10: every value the optimizer writes to the prompt cache is non-empty,
and every string the optimizer entry points return other than the unmodified
original prompt is non-empty: a successful call returns a non-empty string
(or, for `optimize_prompt` with optimization disabled, the original prompt)
and adds at most one cache entry, whose value is that non-empty string; an
empty post-processed output is an API error produced before the cache write
(`finishOllama` errors without touching the cache). -/
theorem C10_theorem (p : String) (mo : Option String) (r : Option String) (dm : String)
    (fr ec oe : Bool) (cache : PromptCacheState) (avail : Bool) (run : RunOutcome)
    (s : String) (c' : PromptCacheState) (m out err : String) :
    (optimize_with_ollama_model p mo r dm fr cache avail run = .ok (s, c') →
      s ≠ "" ∧ (∀ k v, dictGet c' k = some v → dictGet cache k = some v ∨ v ≠ ""))
    ∧ (optimize_prompt_model p mo r ec oe dm cache avail run = .ok (s, c') →
      (s = p ∨ s ≠ "") ∧ (∀ k v, dictGet c' k = some v → dictGet cache k = some v ∨ v ≠ ""))
    ∧ (strip_ollama_thinking (pyStrip out) = "" →
      finishOllama p m r cache out err 0 = .error (.apiErr "Ollama returned an empty response" 0 "")) := by
  have hwrite : ∀ (c2 : PromptCacheState) (s2 : String), s2 ≠ "" →
      (c2 = cache ∨ c2 = cacheSet cache p (mo.getD dm) s2 r) →
      ∀ k v, dictGet c2 k = some v → dictGet cache k = some v ∨ v ≠ "" := by
    intro c2 s2 hs2 hc2 k v hkv
    rcases hc2 with hc2 | hc2
    · exact Or.inl (hc2 ▸ hkv)
    · rw [hc2] at hkv
      rw [show cacheSet cache p (mo.getD dm) s2 r
            = dictInsert cache (generate_key p (mo.getD dm) r) s2 from rfl] at hkv
      rw [dictGet_dictInsert] at hkv
      by_cases hk : k = generate_key p (mo.getD dm) r
      · rw [if_pos hk] at hkv
        right
        cases hkv
        exact hs2
      · rw [if_neg hk] at hkv
        exact Or.inl hkv
  refine ⟨?_, ?_, ?_⟩
  · intro h
    have hi := optimize_with_ollama_ok_inv p mo r dm fr cache avail run s c' h
    exact ⟨hi.1, hwrite c' s hi.1 hi.2⟩
  · intro h
    simp only [optimize_prompt_model] at h
    cases hv : validate_prompt p with
    | error e => rw [hv] at h; cases h
    | ok u =>
        rw [hv] at h
        cases oe with
        | false =>
            simp only [Bool.false_eq_true, if_false, Except.ok.injEq, Prod.mk.injEq] at h
            refine ⟨Or.inl h.1.symm, ?_⟩
            intro k v hkv
            exact Or.inl (h.2 ▸ hkv)
        | true =>
            simp only [if_true, ite_true] at h
            cases ec with
            | false =>
                simp only [Bool.false_eq_true, if_false] at h
                have hi := optimize_with_ollama_ok_inv p mo r dm true cache avail run s c'
                  (by simpa using h)
                exact ⟨Or.inr hi.1, hwrite c' s hi.1 hi.2⟩
            | true =>
                simp only [if_true, ite_true] at h
                cases hc : cacheGet cache p (mo.getD dm) r with
                | some cv =>
                    simp only [hc] at h
                    by_cases hce : cv = ""
                    · rw [if_pos hce] at h
                      have hi := optimize_with_ollama_ok_inv p (some (mo.getD dm)) r dm false
                        cache avail run s c' (by simpa using h)
                      have hi2 : c' = cache ∨ c' = cacheSet cache p (mo.getD dm) s r := by
                        simpa using hi.2
                      exact ⟨Or.inr hi.1, hwrite c' s hi.1 hi2⟩
                    · rw [if_neg hce] at h
                      simp only [Except.ok.injEq, Prod.mk.injEq] at h
                      refine ⟨Or.inr (h.1 ▸ hce), ?_⟩
                      intro k v hkv
                      exact Or.inl (h.2 ▸ hkv)
                | none =>
                    simp only [hc] at h
                    have hi := optimize_with_ollama_ok_inv p (some (mo.getD dm)) r dm false
                      cache avail run s c' (by simpa using h)
                    have hi2 : c' = cache ∨ c' = cacheSet cache p (mo.getD dm) s r := by
                      simpa using hi.2
                    exact ⟨Or.inr hi.1, hwrite c' s hi.1 hi2⟩
  · intro he
    simp only [finishOllama]
    rw [if_neg (by simp), if_pos he]

theorem C10_witness :
    ("A shiny cat" ≠ ""
      ∧ (∀ k v, dictGet (cacheSet [] "a cat" "m" "A shiny cat" none) k = some v →
          dictGet ([] : PromptCacheState) k = some v ∨ v ≠ ""))
    ∧ ("a cat" = "a cat" ∨ "a cat" ≠ "")
    ∧ finishOllama "a cat" "m" none [] "   " "" 0
      = Except.error (GErr.apiErr "Ollama returned an empty response" 0 "") := by
  have h := C10_theorem "a cat" (some "m") none "d" true false false []
    true (RunOutcome.completed "A shiny cat" "" 0)
    "A shiny cat" (cacheSet [] "a cat" "m" "A shiny cat" none) "m" "   " ""
  have h1 := h.1 (by rfl)
  have h3 := C10_theorem "a cat" (some "m") none "d" true false false []
    true (RunOutcome.completed "A shiny cat" "" 0)
    "a cat" ([] : PromptCacheState) "m" "   " ""
  have h2 := h3.2.1 (by rfl)
  exact ⟨h1, h2.1, h.2.2 (by decide)⟩

/-- C9: `ProviderRegistry.get` for an id never registered returns absent
(and `register`/`get` are total functions of the registry state, so neither
throws); registering the same id twice leaves exactly one entry for that id
in `provider_ids()` and `get` returns the last-registered provider. -/
theorem C9_theorem (r : RegistryState) (k : String) (a b : ProviderImpl) :
    (k ∉ registryProviderIds r → registryGet r k = none)
    ∧ ((registryProviderIds r).Nodup →
        List.count k (registryProviderIds (registryRegister (registryRegister r k a) k b)) = 1
        ∧ registryGet (registryRegister (registryRegister r k a) k b) k = some b) := by
  constructor
  · exact fun h => dictGet_eq_none_of_not_mem r k h
  · intro hnd
    refine ⟨?_, dictGet_double_insert r k a b⟩
    show List.count k (dictKeys (dictInsert (dictInsert r k a) k b)) = 1
    rw [dictKeys_double_insert]
    by_cases hk : k ∈ dictKeys r
    · rw [if_pos hk]
      exact List.count_eq_one_of_mem hnd hk
    · rw [if_neg hk]
      rw [List.count_append]
      simp [List.count_eq_zero_of_not_mem hk]

theorem C9_witness :
    ("florence" ∉ registryProviderIds [("openrouter", ProviderImpl.mk true)]
      ∧ registryGet [("openrouter", ProviderImpl.mk true)] "florence" = none)
    ∧ (List.count "ollama"
        (registryProviderIds
          (registryRegister
            (registryRegister [("openrouter", ProviderImpl.mk true)] "ollama" (ProviderImpl.mk true))
            "ollama" (ProviderImpl.mk false))) = 1
      ∧ registryGet
          (registryRegister
            (registryRegister [("openrouter", ProviderImpl.mk true)] "ollama" (ProviderImpl.mk true))
            "ollama" (ProviderImpl.mk false)) "ollama" = some (ProviderImpl.mk false)) := by
  have h := C9_theorem [("openrouter", ProviderImpl.mk true)] "ollama" (ProviderImpl.mk true)
    (ProviderImpl.mk false)
  have h2 := C9_theorem [("openrouter", ProviderImpl.mk true)] "florence" (ProviderImpl.mk true)
    (ProviderImpl.mk false)
  exact ⟨⟨by decide, h2.1 (by decide)⟩, h.2 (by decide)⟩

end Genimg
